import Mathlib

/-!
# Verification of the `tui_selector` selection engine

Shallow embedding of the selector engine in `src/tui_selector.rs` and the
caller-side content preparation and output in `src/main.rs`.

Modelling conventions:
* The Rust struct `SelectorTUI` becomes a Lean structure holding the pure
  fields (`entry_list`, `line_idx`, `sel_tracker`, `scroll_top`); the raw
  terminal handle is I/O only and carries no selection state.
* Rust `usize` becomes `Nat`; the only subtractions performed by the code on
  reachable states never underflow.
* Rust slice indexing `&lines[a..b]`, which panics when `b` exceeds the
  length, is modelled by `sliceVec`, returning `none` exactly in the panic
  case.
* The terminal height query in `calculate_lines_to_draw` is modelled by
  passing `max_rows` (= terminal rows − 1) as an explicit argument.
* Terminal escape sequences emitted through `termion` are modelled as the
  concrete strings termion writes; their exact bytes are irrelevant to every
  property proved below.
-/

/-- State of the selector engine (`struct SelectorTUI` in `src/tui_selector.rs`),
without the terminal handle. -/
structure SelectorTUI where
  entry_list : List String
  line_idx : Nat
  sel_tracker : List Nat
  scroll_top : Nat
deriving DecidableEq

/-- `SelectorTUI::new`: cursor starts at line 1, empty selection, scroll at 0. -/
def SelectorTUI.new (entry_list : List String) : SelectorTUI :=
  { entry_list := entry_list, line_idx := 1, sel_tracker := [], scroll_top := 0 }

/-- `go_top`: move the cursor to the first entry. -/
def go_top (s : SelectorTUI) : SelectorTUI :=
  { s with line_idx := 1 }

/-- `go_bottom`: move the cursor to the last entry. -/
def go_bottom (s : SelectorTUI) : SelectorTUI :=
  { s with line_idx := s.entry_list.length }

/-- `move_down`: increment the cursor; on passing the last entry, wrap to the top. -/
def move_down (s : SelectorTUI) : SelectorTUI :=
  let s1 : SelectorTUI := { s with line_idx := s.line_idx + 1 }
  if s1.line_idx = s1.entry_list.length + 1 then go_top s1 else s1

/-- `move_up`: decrement the cursor; below line 1, wrap to the bottom. -/
def move_up (s : SelectorTUI) : SelectorTUI :=
  let s1 : SelectorTUI := { s with line_idx := s.line_idx - 1 }
  if s1.line_idx < 1 then go_bottom s1 else s1

/-- The selection-tracker transformation performed by `toggle_selection`:
if the key is present, remove its first occurrence (Rust finds the first
position and calls `Vec::remove` there); otherwise push it at the end. -/
def toggle_tracker (key : Nat) (tracker : List Nat) : List Nat :=
  if tracker.contains key then tracker.erase key else tracker ++ [key]

/-- `toggle_selection`: toggle membership of `line_idx + 1` in the tracker,
then move down. -/
def toggle_selection (s : SelectorTUI) : SelectorTUI :=
  move_down { s with sel_tracker := toggle_tracker (s.line_idx + 1) s.sel_tracker }

/-- `select_all`: clear, then push `idx + 2` for every `idx` in `0..entry_list.len()`. -/
def select_all (s : SelectorTUI) : SelectorTUI :=
  { s with sel_tracker := (List.range s.entry_list.length).map (fun idx => idx + 2) }

/-- `select_none`: clear the tracker. -/
def select_none (s : SelectorTUI) : SelectorTUI :=
  { s with sel_tracker := [] }

/-- `retrieve_selection`: `None` when the tracker is empty, otherwise every
tracked value shifted back by 2 into 0-based original-list coordinates. -/
def retrieve_selection (s : SelectorTUI) : Option (List Nat) :=
  if s.sel_tracker.isEmpty then none
  else some (s.sel_tracker.map (fun i => i - 2))

/-- Escape sequence written by `termion::color::Fg(termion::color::Black)`. -/
def termion_fg_black : String := "\x1b[38;5;0m"

/-- Escape sequence written by `termion::color::Bg(termion::color::White)`. -/
def termion_bg_white : String := "\x1b[48;5;7m"

/-- Escape sequence written by `termion::color::Fg(termion::color::Reset)`. -/
def termion_fg_reset : String := "\x1b[39m"

/-- Escape sequence written by `termion::color::Bg(termion::color::Reset)`. -/
def termion_bg_reset : String := "\x1b[49m"

/-- `make_header_line`: header with selected/total counts and the keybinding legend. -/
def make_header_line (s : SelectorTUI) : String :=
  termion_fg_black ++ termion_bg_white ++ " (" ++ toString s.sel_tracker.length ++
    " selected / " ++ toString s.entry_list.length ++
    " total)  [l/right:select  enter:run selection  q/h/left:quit  a:select all  n:deselect all] "

/-- `make_entries_into_lines`: one line per entry, cursor marker on the current
line, inverted colors on selected entries. -/
def make_entries_into_lines (s : SelectorTUI) : List String :=
  s.entry_list.enum.map (fun p =>
    let marker : String := if p.1 + 1 = s.line_idx then ">" else " "
    if s.sel_tracker.contains (p.1 + 2) then
      termion_fg_black ++ termion_bg_white ++ marker ++ " " ++ p.2 ++
        termion_fg_reset ++ termion_bg_reset
    else
      termion_fg_reset ++ termion_bg_reset ++ marker ++ " " ++ p.2)

/-- `make_content`: header line followed by the entry lines. -/
def make_content (s : SelectorTUI) : List String :=
  make_header_line s :: make_entries_into_lines s

/-- Rust slice `&lines[a..b]`: defined only when `a ≤ b ≤ lines.length`,
otherwise the program panics (modelled as `none`). -/
def sliceVec (lines : List String) (a b : Nat) : Option (List String) :=
  if a ≤ b ∧ b ≤ lines.length then some ((lines.drop a).take (b - a)) else none

/-- `calculate_lines_to_draw`: update `scroll_top` from the cursor's content
line and the viewport height, then slice the content. Returns the drawn slice
(`none` = out-of-bounds panic) together with the updated state. -/
def calculate_lines_to_draw (s : SelectorTUI) (max_rows : Nat) (lines : List String) :
    Option (List String) × SelectorTUI :=
  let cur_line := s.line_idx + 1
  let scroll_top :=
    if cur_line ≤ s.scroll_top then 0
    else if cur_line - s.scroll_top > max_rows then cur_line - max_rows
    else s.scroll_top
  let last_idx := min max_rows lines.length
  (sliceVec lines scroll_top (scroll_top + last_idx),
   { s with scroll_top := scroll_top })

/-- `refresh_content`: assemble the content and compute the lines to draw
(the actual screen writes are pure I/O and touch no state). -/
def refresh_content (s : SelectorTUI) (max_rows : Nat) :
    Option (List String) × SelectorTUI :=
  calculate_lines_to_draw s max_rows (make_content s)

/-- Key events distinguished by the input loop in `select`. -/
inductive KeyEv
  | left
  | right
  | up
  | down
  | ch (c : Char)
  | other
deriving DecidableEq

/-- The quit arm of the match in `select`: `Key::Left | Key::Char('q' | 'h')`. -/
def is_quit_key : KeyEv → Bool
  | .left => true
  | .ch c => c == 'q' || c == 'h'
  | _ => false

/-- The confirm arm of the match in `select`: `Key::Char('\n')`. -/
def is_confirm_key : KeyEv → Bool
  | .ch c => c == '\n'
  | _ => false

/-- The non-terminating arms of the match in `select`. -/
def step_key (k : KeyEv) (s : SelectorTUI) : SelectorTUI :=
  match k with
  | .up => move_up s
  | .ch 'k' => move_up s
  | .down => move_down s
  | .ch 'j' => move_down s
  | .right => toggle_selection s
  | .ch 'l' => toggle_selection s
  | .ch 'a' => select_all s
  | .ch 'n' => select_none s
  | _ => s

/-- The key loop of `select`: quit breaks with the selection still `None`;
newline retrieves the selection and breaks; every other key updates the state
and re-renders. An exhausted key stream ends the loop with `None`. -/
def select_loop (max_rows : Nat) : List KeyEv → SelectorTUI → Option (List Nat)
  | [], _ => none
  | k :: ks, s =>
    if is_quit_key k then none
    else if is_confirm_key k then retrieve_selection s
    else select_loop max_rows ks (refresh_content (step_key k s) max_rows).2

/-- `select` (`src/tui_selector.rs`): build the engine, render once, run the
key loop, return the final selection. -/
def select (max_rows : Nat) (entry_list : List String) (keys : List KeyEv) :
    Option (List Nat) :=
  select_loop max_rows keys (refresh_content (SelectorTUI.new entry_list) max_rows).2

/-- `str::split_once` on character lists: split at the first occurrence of the
separator, or `none` when the separator does not occur. -/
def splitOnceAux (sep : List Char) : List Char → Option (List Char × List Char)
  | [] => none
  | c :: cs =>
    if sep.isPrefixOf (c :: cs) then some ([], (c :: cs).drop sep.length)
    else
      match splitOnceAux sep cs with
      | some (pre, post) => some (c :: pre, post)
      | none => none

/-- `str::split_once` (for the non-empty separators used by `main.rs`). -/
def split_once (s sep : String) : Option (String × String) :=
  match splitOnceAux sep.data s.data with
  | some (pre, post) => some (⟨pre⟩, ⟨post⟩)
  | none => none

/-- `get_num_str` (`src/main.rs`): zero-pad `n` to the decimal width of `max_n`. -/
def get_num_str (n max_n : Nat) : String :=
  String.mk (List.replicate ((toString max_n).length - (toString n).length) '0') ++
    toString n

/-- `add_numbering` (`src/main.rs`): prefix each entry with its padded 1-based number. -/
def add_numbering (entry_list : List String) : List String :=
  entry_list.enum.map (fun p =>
    " " ++ get_num_str (p.1 + 1) entry_list.length ++ " " ++ p.2)

/-- `prepare_selector_content` (`src/main.rs`): in id mode keep the text after
the first "::" (falling back to the whole line when absent), then optionally
add numbering. -/
def prepare_selector_content (input_stream : List String) (add_num id_out : Bool) :
    List String :=
  let selector_content :=
    if id_out then
      input_stream.map (fun l => ((split_once l "::").getD ("", l)).2)
    else input_stream
  if add_num then add_numbering selector_content else selector_content

/-- The string printed by `main` for one selected original entry: in id mode
the part before the first "::" (falling back to the whole line when absent),
otherwise the entry itself. -/
def output_item (id_mode : Bool) (item : String) : String :=
  if id_mode then ((split_once item "::").getD (item, "")).1 else item

/-- Modelled from the spec: the scroll-offset update rule as §4.2 states it,
to be compared with the update the source performs. -/
def spec_scroll_update (scroll_top cur max_rows : Nat) : Nat :=
  if cur ≤ scroll_top then 0
  else if cur - scroll_top > max_rows then cur - max_rows
  else scroll_top

/-- Cursor invariant: the cursor lies in `[1, entry_count]`. -/
def cursorInv (s : SelectorTUI) : Prop :=
  1 ≤ s.line_idx ∧ s.line_idx ≤ s.entry_list.length

instance (s : SelectorTUI) : Decidable (cursorInv s) := by
  unfold cursorInv; infer_instance

/-- Tracker invariant: every tracked value is a header-offset content line
number of a valid entry, i.e. lies in `[2, entry_count + 1]`. -/
def trackerInv (s : SelectorTUI) : Prop :=
  ∀ x ∈ s.sel_tracker, 2 ≤ x ∧ x ≤ s.entry_list.length + 1

instance (s : SelectorTUI) : Decidable (trackerInv s) := by
  unfold trackerInv; infer_instance

-- Field-level facts about the state operations, shared by the theorems below.

theorem move_down_entry_list (s : SelectorTUI) : (move_down s).entry_list = s.entry_list := by
  simp only [move_down, go_top]
  split <;> rfl

theorem move_down_sel_tracker (s : SelectorTUI) :
    (move_down s).sel_tracker = s.sel_tracker := by
  simp only [move_down, go_top]
  split <;> rfl

theorem move_down_line_idx (s : SelectorTUI) :
    (move_down s).line_idx =
      if s.line_idx + 1 = s.entry_list.length + 1 then 1 else s.line_idx + 1 := by
  simp only [move_down, go_top]
  split <;> rfl

theorem move_up_entry_list (s : SelectorTUI) : (move_up s).entry_list = s.entry_list := by
  simp only [move_up, go_bottom]
  split <;> rfl

theorem move_up_line_idx (s : SelectorTUI) :
    (move_up s).line_idx =
      if s.line_idx - 1 < 1 then s.entry_list.length else s.line_idx - 1 := by
  simp only [move_up, go_bottom]
  split <;> rfl

theorem toggle_selection_entry_list (s : SelectorTUI) :
    (toggle_selection s).entry_list = s.entry_list := by
  unfold toggle_selection
  rw [move_down_entry_list]

theorem toggle_selection_line_idx (s : SelectorTUI) :
    (toggle_selection s).line_idx = (move_down s).line_idx := by
  unfold toggle_selection
  rw [move_down_line_idx, move_down_line_idx]

theorem toggle_selection_sel_tracker (s : SelectorTUI) :
    (toggle_selection s).sel_tracker = toggle_tracker (s.line_idx + 1) s.sel_tracker := by
  unfold toggle_selection
  rw [move_down_sel_tracker]

theorem calculate_lines_to_draw_state (s : SelectorTUI) (max_rows : Nat)
    (lines : List String) :
    (calculate_lines_to_draw s max_rows lines).2 =
      { s with scroll_top := spec_scroll_update s.scroll_top (s.line_idx + 1) max_rows } := by
  rfl

/-- C2: with the cursor in `[1, n]` (`n ≥ 1` follows), `move_down` from `n`
wraps to `1` and otherwise adds one; `move_up` from `1` wraps to `n` and
otherwise subtracts one. -/
theorem cursor_wrap_moves (s : SelectorTUI) (h1 : 1 ≤ s.line_idx)
    (h2 : s.line_idx ≤ s.entry_list.length) :
    (s.line_idx = s.entry_list.length → (move_down s).line_idx = 1) ∧
    (s.line_idx < s.entry_list.length → (move_down s).line_idx = s.line_idx + 1) ∧
    (s.line_idx = 1 → (move_up s).line_idx = s.entry_list.length) ∧
    (1 < s.line_idx → (move_up s).line_idx = s.line_idx - 1) := by
  rw [move_down_line_idx, move_up_line_idx] at *
  refine ⟨?_, ?_, ?_, ?_⟩ <;> intro h <;> split <;> omega

theorem cursor_wrap_moves_witness :
    1 ≤ (SelectorTUI.new ["a", "b"]).line_idx ∧
    (SelectorTUI.new ["a", "b"]).line_idx ≤ (SelectorTUI.new ["a", "b"]).entry_list.length ∧
    (((SelectorTUI.new ["a", "b"]).line_idx = (SelectorTUI.new ["a", "b"]).entry_list.length →
        (move_down (SelectorTUI.new ["a", "b"])).line_idx = 1) ∧
      ((SelectorTUI.new ["a", "b"]).line_idx < (SelectorTUI.new ["a", "b"]).entry_list.length →
        (move_down (SelectorTUI.new ["a", "b"])).line_idx =
          (SelectorTUI.new ["a", "b"]).line_idx + 1) ∧
      ((SelectorTUI.new ["a", "b"]).line_idx = 1 →
        (move_up (SelectorTUI.new ["a", "b"])).line_idx =
          (SelectorTUI.new ["a", "b"]).entry_list.length) ∧
      (1 < (SelectorTUI.new ["a", "b"]).line_idx →
        (move_up (SelectorTUI.new ["a", "b"])).line_idx =
          (SelectorTUI.new ["a", "b"]).line_idx - 1)) :=
  ⟨by decide, by decide, cursor_wrap_moves (SelectorTUI.new ["a", "b"]) (by decide) (by decide)⟩

/-- C5: the state returned by `calculate_lines_to_draw` is the input state with
`scroll_top` replaced by exactly the spec's update rule applied to the previous
`scroll_top`, the cursor's content line `cursor + 1`, and `max_rows` — so no
other state influences or is changed by the update. -/
theorem scroll_top_update_rule (s : SelectorTUI) (max_rows : Nat) (lines : List String) :
    (calculate_lines_to_draw s max_rows lines).2 =
      { s with scroll_top := spec_scroll_update s.scroll_top (s.line_idx + 1) max_rows } :=
  calculate_lines_to_draw_state s max_rows lines

/-- C10: the render path (`refresh_content`, i.e. content assembly plus the
scroll-window computation) leaves the cursor, the selection set and the entry
list unchanged, and no state operation ever mutates the entry list. -/
theorem render_frame_condition (s : SelectorTUI) (max_rows : Nat) :
    (refresh_content s max_rows).2.line_idx = s.line_idx ∧
    (refresh_content s max_rows).2.sel_tracker = s.sel_tracker ∧
    (refresh_content s max_rows).2.entry_list = s.entry_list ∧
    (move_up s).entry_list = s.entry_list ∧
    (move_down s).entry_list = s.entry_list ∧
    (toggle_selection s).entry_list = s.entry_list ∧
    (select_all s).entry_list = s.entry_list ∧
    (select_none s).entry_list = s.entry_list ∧
    (go_top s).entry_list = s.entry_list ∧
    (go_bottom s).entry_list = s.entry_list := by
  refine ⟨?_, ?_, ?_, move_up_entry_list s, move_down_entry_list s,
    toggle_selection_entry_list s, rfl, rfl, rfl, rfl⟩ <;>
    rw [refresh_content, calculate_lines_to_draw_state]

theorem move_down_line_idx_congr (s t : SelectorTUI) (h1 : s.line_idx = t.line_idx)
    (h2 : s.entry_list.length = t.entry_list.length) :
    (move_down s).line_idx = (move_down t).line_idx := by
  rw [move_down_line_idx, move_down_line_idx, h1, h2]

theorem cursorInv_move_down (s : SelectorTUI) (h : cursorInv s) :
    cursorInv (move_down s) := by
  obtain ⟨h1, h2⟩ := h
  unfold cursorInv
  rw [move_down_line_idx, move_down_entry_list]
  split <;> omega

theorem cursorInv_move_up (s : SelectorTUI) (h : cursorInv s) :
    cursorInv (move_up s) := by
  obtain ⟨h1, h2⟩ := h
  unfold cursorInv
  rw [move_up_line_idx, move_up_entry_list]
  split <;> omega

theorem cursorInv_toggle (s : SelectorTUI) (h : cursorInv s) :
    cursorInv (toggle_selection s) := by
  obtain ⟨h1, h2⟩ := h
  unfold cursorInv
  rw [toggle_selection_line_idx, toggle_selection_entry_list, move_down_line_idx]
  split <;> omega

theorem toggle_tracker_twice (key : Nat) (t : List Nat) (hnd : t.Nodup) :
    List.Perm (toggle_tracker key (toggle_tracker key t)) t := by
  by_cases h : key ∈ t
  · have hc : t.contains key = true := by simpa using h
    have hkey : key ∉ t.erase key := hnd.not_mem_erase
    have hstep1 : toggle_tracker key t = t.erase key := by
      rw [toggle_tracker, if_pos hc]
    have hstep2 : toggle_tracker key (t.erase key) = t.erase key ++ [key] := by
      rw [toggle_tracker, if_neg (fun hx => hkey (by simpa using hx))]
    rw [hstep1, hstep2]
    exact (List.perm_append_singleton key (t.erase key)).trans
      (List.perm_cons_erase h).symm
  · have hstep1 : toggle_tracker key t = t ++ [key] := by
      rw [toggle_tracker, if_neg (fun hx => h (by simpa using hx))]
    have hstep2 : toggle_tracker key (t ++ [key]) = t := by
      rw [toggle_tracker, if_pos (by simp), List.erase_append_right _ h,
        List.erase_cons_head]
      simp
    rw [hstep1, hstep2]

/-- C1: refuted as stated — at the same input list, the public result of
`select` after the quit key and after confirm (newline) with an empty
selection set is `none` in both cases, so the two "no selection" outcomes are
not distinguishable by the caller. -/
theorem select_quit_confirm_empty_indistinct_cex :
    select 40 ["alpha", "beta", "gamma"] [KeyEv.ch 'q'] = none ∧
    select 40 ["alpha", "beta", "gamma"] [KeyEv.ch '\n'] = none ∧
    select 40 ["alpha", "beta", "gamma"] [KeyEv.ch 'q'] =
      select 40 ["alpha", "beta", "gamma"] [KeyEv.ch '\n'] :=
  ⟨rfl, rfl, rfl⟩

/-- C1 (amended): from any engine state with an empty selection set, pressing
the quit key yields `none` and pressing confirm yields `none` as well — the
two "no selection" outcomes of `select` coincide and are not observably
distinct at the public interface. -/
theorem select_no_selection_outcomes_coincide (max_rows : Nat) (s : SelectorTUI)
    (ks : List KeyEv) (hempty : s.sel_tracker = []) :
    select_loop max_rows (KeyEv.ch 'q' :: ks) s = none ∧
    select_loop max_rows (KeyEv.ch '\n' :: ks) s = none ∧
    select_loop max_rows (KeyEv.ch 'q' :: ks) s =
      select_loop max_rows (KeyEv.ch '\n' :: ks) s := by
  simp [select_loop, is_quit_key, is_confirm_key, retrieve_selection, hempty]

theorem select_no_selection_outcomes_coincide_witness :
    (SelectorTUI.new ["alpha", "beta", "gamma"]).sel_tracker = [] ∧
    (select_loop 40 [KeyEv.ch 'q'] (SelectorTUI.new ["alpha", "beta", "gamma"]) = none ∧
     select_loop 40 [KeyEv.ch '\n'] (SelectorTUI.new ["alpha", "beta", "gamma"]) = none ∧
     select_loop 40 [KeyEv.ch 'q'] (SelectorTUI.new ["alpha", "beta", "gamma"]) =
       select_loop 40 [KeyEv.ch '\n'] (SelectorTUI.new ["alpha", "beta", "gamma"])) :=
  ⟨rfl, select_no_selection_outcomes_coincide 40 (SelectorTUI.new ["alpha", "beta", "gamma"])
    [] rfl⟩

/-- C7: refuted as stated — the claim quantifies over every entry list, but at
the empty entry list the constructor places the cursor at 1 while
`[1, entry_count] = [1, 0]` is empty. -/
theorem cursor_range_cex :
    (SelectorTUI.new ([] : List String)).line_idx = 1 ∧
    ¬ (SelectorTUI.new ([] : List String)).line_idx ≤
      (SelectorTUI.new ([] : List String)).entry_list.length :=
  ⟨rfl, by decide⟩

/-- C7 (amended): for every non-empty entry list the cursor lies in
`[1, entry_count]` at construction and this is preserved by `move_up`,
`move_down`, `toggle_selection`, `select_all` and `select_none`. -/
theorem cursor_range_invariant_amended (s : SelectorTUI)
    (hn : 1 ≤ s.entry_list.length) (h : cursorInv s) :
    cursorInv (SelectorTUI.new s.entry_list) ∧ cursorInv (move_up s) ∧
    cursorInv (move_down s) ∧ cursorInv (toggle_selection s) ∧
    cursorInv (select_all s) ∧ cursorInv (select_none s) :=
  ⟨⟨Nat.le_refl 1, hn⟩, cursorInv_move_up s h, cursorInv_move_down s h,
   cursorInv_toggle s h, h, h⟩

theorem cursor_range_invariant_amended_witness :
    1 ≤ (SelectorTUI.new ["a"]).entry_list.length ∧ cursorInv (SelectorTUI.new ["a"]) ∧
    (cursorInv (SelectorTUI.new (SelectorTUI.new ["a"]).entry_list) ∧
     cursorInv (move_up (SelectorTUI.new ["a"])) ∧
     cursorInv (move_down (SelectorTUI.new ["a"])) ∧
     cursorInv (toggle_selection (SelectorTUI.new ["a"])) ∧
     cursorInv (select_all (SelectorTUI.new ["a"])) ∧
     cursorInv (select_none (SelectorTUI.new ["a"]))) :=
  ⟨by decide, by decide,
   cursor_range_invariant_amended (SelectorTUI.new ["a"]) (by decide) (by decide)⟩

/-- C8: refuted as stated — the claim quantifies over every entry list, but at
the empty entry list `select_all` leaves the tracker empty, so
`retrieve_selection` answers "no selection" (`none`) rather than the empty
collection of indices. -/
theorem select_all_empty_cex :
    retrieve_selection (select_all (SelectorTUI.new ([] : List String))) = none ∧
    retrieve_selection (select_all (SelectorTUI.new ([] : List String))) ≠ some [] :=
  ⟨rfl, by decide⟩

/-- C8 (amended): for every entry list with `n ≥ 1` and any prior selection
state, after `select_all` the retrieved selection is exactly the indices
`0, …, n−1`; after `select_none` it is "no selection" (for every `n`). -/
theorem select_all_none_retrieve (s : SelectorTUI) :
    (1 ≤ s.entry_list.length →
      retrieve_selection (select_all s) = some (List.range s.entry_list.length)) ∧
    retrieve_selection (select_none s) = none := by
  refine ⟨fun hn => ?_, by simp [retrieve_selection, select_none]⟩
  have h2 : ∀ l : List Nat, (l.map (fun idx => idx + 2)).map (fun i => i - 2) = l := by
    intro l
    rw [List.map_map]
    have hfun : ((fun i => i - 2) ∘ fun idx => idx + 2) = @id Nat := by
      funext x
      simp [Function.comp]
    rw [hfun, List.map_id]
  simp only [retrieve_selection, select_all, h2]
  rw [if_neg]
  simp only [List.isEmpty_iff, List.map_eq_nil_iff, List.range_eq_nil]
  omega

theorem select_all_none_retrieve_witness :
    1 ≤ (SelectorTUI.new ["a", "b"]).entry_list.length ∧
    retrieve_selection (select_all (SelectorTUI.new ["a", "b"])) =
      some (List.range (SelectorTUI.new ["a", "b"]).entry_list.length) ∧
    retrieve_selection (select_none (SelectorTUI.new ["a", "b"])) = none :=
  ⟨by decide,
   (select_all_none_retrieve (SelectorTUI.new ["a", "b"])).1 (by decide),
   (select_all_none_retrieve (SelectorTUI.new ["a", "b"])).2⟩

/-- C9: toggling the same entry twice with no other selection mutation in
between returns the selection set to its prior state (as a set: the tracker
after the double toggle is a permutation of the tracker before), while a
double `toggle_selection` advances the cursor exactly as two wrap-adjusted
`move_down` steps. -/
theorem toggle_twice_restores_selection (s : SelectorTUI) (p : Nat)
    (hnd : s.sel_tracker.Nodup) :
    List.Perm (toggle_tracker (p + 1) (toggle_tracker (p + 1) s.sel_tracker))
      s.sel_tracker ∧
    (toggle_selection (toggle_selection s)).line_idx =
      (move_down (move_down s)).line_idx := by
  refine ⟨toggle_tracker_twice (p + 1) s.sel_tracker hnd, ?_⟩
  rw [toggle_selection_line_idx]
  exact move_down_line_idx_congr (toggle_selection s) (move_down s)
    (toggle_selection_line_idx s)
    (by rw [toggle_selection_entry_list, move_down_entry_list])

theorem toggle_twice_restores_selection_witness :
    (SelectorTUI.new ["a", "b", "c"]).sel_tracker.Nodup ∧
    (List.Perm
        (toggle_tracker (1 + 1)
          (toggle_tracker (1 + 1) (SelectorTUI.new ["a", "b", "c"]).sel_tracker))
        (SelectorTUI.new ["a", "b", "c"]).sel_tracker ∧
      (toggle_selection (toggle_selection (SelectorTUI.new ["a", "b", "c"]))).line_idx =
        (move_down (move_down (SelectorTUI.new ["a", "b", "c"]))).line_idx) :=
  ⟨by decide, toggle_twice_restores_selection (SelectorTUI.new ["a", "b", "c"]) 1
    (by decide)⟩

theorem calculate_lines_to_draw_fst (s : SelectorTUI) (max_rows : Nat)
    (lines : List String) :
    (calculate_lines_to_draw s max_rows lines).1 =
      sliceVec lines (spec_scroll_update s.scroll_top (s.line_idx + 1) max_rows)
        (spec_scroll_update s.scroll_top (s.line_idx + 1) max_rows +
          min max_rows lines.length) := by
  rfl

/-- C3: `retrieve_selection` answers `none` exactly on the empty selection set;
under the tracker invariant every returned value is a valid 0-based index
(`≤ n − 1`); and the concrete run on five entries with toggles at cursor
positions 1, 3 and 5 retrieves exactly `[0, 2, 4]`. -/
theorem retrieve_selection_translation (s : SelectorTUI) (hinv : trackerInv s) :
    (retrieve_selection s = none ↔ s.sel_tracker = []) ∧
    (∀ l, retrieve_selection s = some l → ∀ v ∈ l, v ≤ s.entry_list.length - 1) ∧
    retrieve_selection (toggle_selection (move_down (toggle_selection (move_down
        (toggle_selection (SelectorTUI.new ["e1", "e2", "e3", "e4", "e5"])))))) =
      some [0, 2, 4] := by
  refine ⟨?_, ?_, by decide⟩
  · constructor
    · intro h
      by_cases he : s.sel_tracker.isEmpty
      · exact List.isEmpty_iff.mp he
      · simp [retrieve_selection, he] at h
    · intro h
      simp [retrieve_selection, h]
  · intro l hl v hv
    have hne : ¬ s.sel_tracker.isEmpty := by
      intro he
      simp [retrieve_selection, he] at hl
    simp only [retrieve_selection, hne, if_neg, Bool.not_eq_true] at hl
    obtain rfl : s.sel_tracker.map (fun i => i - 2) = l := Option.some.inj hl
    obtain ⟨x, hx, hxv⟩ := List.mem_map.mp hv
    have hb := hinv x hx
    omega

theorem retrieve_selection_translation_witness :
    trackerInv (SelectorTUI.new ["a"]) ∧
    ((retrieve_selection (SelectorTUI.new ["a"]) = none ↔
        (SelectorTUI.new ["a"]).sel_tracker = []) ∧
      (∀ l, retrieve_selection (SelectorTUI.new ["a"]) = some l →
        ∀ v ∈ l, v ≤ (SelectorTUI.new ["a"]).entry_list.length - 1) ∧
      retrieve_selection (toggle_selection (move_down (toggle_selection (move_down
          (toggle_selection (SelectorTUI.new ["e1", "e2", "e3", "e4", "e5"])))))) =
        some [0, 2, 4]) :=
  ⟨by decide, retrieve_selection_translation (SelectorTUI.new ["a"]) (by decide)⟩

/-- C4: refuted as stated — with `scroll_top = 5`, cursor 1, `max_rows = 1` on
the one-entry list, the snap-to-top branch draws only the header, so the
visible slice does not contain the cursor's content line; and with
`scroll_top = 1`, cursor 1, `max_rows = 2` the slice bounds exceed the content
length, so no slice of length `min(max_rows, content length)` exists at all
(the source indexing panics). -/
theorem scroll_window_bounds_cex :
    (calculate_lines_to_draw ⟨["a"], 1, [], 5⟩ 1
        (make_content ⟨["a"], 1, [], 5⟩)).1 =
      some [make_header_line ⟨["a"], 1, [], 5⟩] ∧
    (make_content ⟨["a"], 1, [], 5⟩)[1]? =
      some (termion_fg_reset ++ termion_bg_reset ++ "> a") ∧
    ¬ (termion_fg_reset ++ termion_bg_reset ++ "> a") ∈
        [make_header_line ⟨["a"], 1, [], 5⟩] ∧
    (calculate_lines_to_draw ⟨["a"], 1, [], 1⟩ 2
        (make_content ⟨["a"], 1, [], 1⟩)).1 = none :=
  ⟨by decide, by decide, by decide, by decide⟩

/-- C4 (amended): for every `scroll_top`, cursor in `[1, n]` and
`max_rows ≥ 1`, whenever the slice computation is in bounds (otherwise the
source's slice indexing panics) the visible slice has length
`min(max_rows, total_content_lines)`, and it contains the header-adjusted
cursor line except in the snap-to-top case with the cursor's content line
beyond the window (`cur ≤ scroll_top` and `cur > max_rows`). -/
theorem scroll_window_bounds_amended (s : SelectorTUI) (max_rows : Nat)
    (lines : List String) (hmr : 1 ≤ max_rows) (hp1 : 1 ≤ s.line_idx)
    (hp2 : s.line_idx ≤ s.entry_list.length)
    (hlen : lines.length = s.entry_list.length + 1) (l : List String)
    (hsome : (calculate_lines_to_draw s max_rows lines).1 = some l) :
    l.length = min max_rows lines.length ∧
    (¬ (s.line_idx + 1 ≤ s.scroll_top ∧ max_rows < s.line_idx + 1) →
      (calculate_lines_to_draw s max_rows lines).2.scroll_top < s.line_idx + 1 ∧
      s.line_idx + 1 ≤
        (calculate_lines_to_draw s max_rows lines).2.scroll_top + l.length) := by
  rw [calculate_lines_to_draw_fst] at hsome
  have hsnd : (calculate_lines_to_draw s max_rows lines).2.scroll_top =
      spec_scroll_update s.scroll_top (s.line_idx + 1) max_rows := rfl
  rw [hsnd]
  set U := spec_scroll_update s.scroll_top (s.line_idx + 1) max_rows with hUdef
  have hUcases : (s.line_idx + 1 ≤ s.scroll_top ∧ U = 0) ∨
      (s.scroll_top < s.line_idx + 1 ∧ max_rows < s.line_idx + 1 - s.scroll_top ∧
        U = s.line_idx + 1 - max_rows) ∨
      (s.scroll_top < s.line_idx + 1 ∧ s.line_idx + 1 - s.scroll_top ≤ max_rows ∧
        U = s.scroll_top) := by
    rw [hUdef]
    unfold spec_scroll_update
    by_cases hA : s.line_idx + 1 ≤ s.scroll_top
    · exact Or.inl ⟨hA, by rw [if_pos hA]⟩
    · by_cases hB : s.line_idx + 1 - s.scroll_top > max_rows
      · exact Or.inr (Or.inl ⟨by omega, hB, by rw [if_neg hA, if_pos hB]⟩)
      · exact Or.inr (Or.inr ⟨by omega, by omega, by rw [if_neg hA, if_neg hB]⟩)
  unfold sliceVec at hsome
  split at hsome
  case isFalse => exact Option.noConfusion hsome
  case isTrue hcond =>
    obtain rfl : (lines.drop U).take (U + min max_rows lines.length - U) = l :=
      Option.some.inj hsome
    rw [List.length_take, List.length_drop]
    constructor
    · omega
    · intro hnot
      omega

theorem scroll_window_bounds_amended_witness :
    1 ≤ 2 ∧ 1 ≤ (⟨["a"], 1, [], 0⟩ : SelectorTUI).line_idx ∧
    (⟨["a"], 1, [], 0⟩ : SelectorTUI).line_idx ≤
      (⟨["a"], 1, [], 0⟩ : SelectorTUI).entry_list.length ∧
    (["H", "E"] : List String).length =
      (⟨["a"], 1, [], 0⟩ : SelectorTUI).entry_list.length + 1 ∧
    (calculate_lines_to_draw ⟨["a"], 1, [], 0⟩ 2 ["H", "E"]).1 = some ["H", "E"] ∧
    ((["H", "E"] : List String).length = min 2 (["H", "E"] : List String).length ∧
      (¬ ((⟨["a"], 1, [], 0⟩ : SelectorTUI).line_idx + 1 ≤
            (⟨["a"], 1, [], 0⟩ : SelectorTUI).scroll_top ∧
          2 < (⟨["a"], 1, [], 0⟩ : SelectorTUI).line_idx + 1) →
        (calculate_lines_to_draw ⟨["a"], 1, [], 0⟩ 2 ["H", "E"]).2.scroll_top <
          (⟨["a"], 1, [], 0⟩ : SelectorTUI).line_idx + 1 ∧
        (⟨["a"], 1, [], 0⟩ : SelectorTUI).line_idx + 1 ≤
          (calculate_lines_to_draw ⟨["a"], 1, [], 0⟩ 2 ["H", "E"]).2.scroll_top +
            (["H", "E"] : List String).length)) :=
  ⟨by decide, by decide, by decide, by decide, by decide,
   scroll_window_bounds_amended ⟨["a"], 1, [], 0⟩ 2 ["H", "E"] (by decide) (by decide)
     (by decide) (by decide) ["H", "E"] (by decide)⟩

/-- C6: refuted as stated — in id mode an input line lacking "::" is indeed
displayed whole and never fatal, but when that entry is selected the printed
identifier is the whole line itself, not the empty string. -/
theorem id_fallback_cex :
    prepare_selector_content ["foo"] false true = ["foo"] ∧
    output_item true "foo" = "foo" ∧
    "foo" ≠ "" :=
  ⟨by decide, by decide, by decide⟩

/-- C6 (amended): in id mode, for every input entry lacking the "::"
separator, the whole line is the display text and, if that entry is selected,
the whole line itself is printed as the output; the case is handled totally,
never as a fatal error. -/
theorem id_fallback_amended (l : String) (hq : split_once l "::" = none) :
    prepare_selector_content [l] false true = [l] ∧ output_item true l = l := by
  constructor
  · simp [prepare_selector_content, hq]
  · simp [output_item, hq]

theorem id_fallback_amended_witness :
    split_once "foo" "::" = none ∧
    (prepare_selector_content ["foo"] false true = ["foo"] ∧
      output_item true "foo" = "foo") :=
  ⟨by decide, id_fallback_amended "foo" (by decide)⟩
